import Mathlib

/-!
# Verification of `netlify-plugin-sitemap-ping` (`src/index.js`)

A shallow embedding of the plugin's `onSuccess` hook as a pure function
producing a trace of observable events (log lines, filesystem existence
checks, outbound GET requests).  The filesystem is modelled as a `World`
value threaded through the run, so that the absence of writes is a
provable property; the network is a pure function from a URL to either a
transport-error message or an HTTP response.
-/

namespace SitemapPing

/-- An HTTP response as observed by `httpGet` in `src/index.js`: the
numeric status code and the accumulated body. -/
structure HttpResponse where
  status : Nat
  body : String
deriving DecidableEq

/-- The network: given a URL, either the request fails at the transport
level with an error message (`.error`, modelling promise rejection in
`httpGet`) or it yields a response (`.ok`). -/
def Net : Type := String → Except String HttpResponse

/-- A ping target as built in the `targets` array of `src/index.js`:
a display name and the ping URL. -/
structure Target where
  name : String
  url : String
deriving DecidableEq

/-- Observable events of a run: a `console.log` line, an
`fs.existsSync` check of a path, and an issued HTTPS GET. -/
inductive Event where
  | log (msg : String)
  | fsCheck (path : String)
  | netGet (url : String)
deriving DecidableEq

/-- The world visible to the filesystem API: which paths exist.  The
run threads a `World` through every filesystem operation so that the
read-only nature of the hook is a provable statement. -/
structure World where
  files : String → Bool

/-- The `fs.existsSync` call: reads the world, returns it unchanged
together with the existence bit. -/
def existsSync (w : World) (p : String) : World × Bool :=
  (w, w.files p)

/-- JavaScript coercion of an optional string input: `undefined`
becomes the empty string (both are falsy). -/
def jsString : Option String → String
  | some s => s
  | none => ""

/-- JavaScript `a || b` on strings: the empty string is falsy. -/
def jsOr (a b : String) : String :=
  if a = "" then b else a

/-- The `.replace(/\/$/, "")` call: remove a single trailing slash if
the string ends in one. -/
def stripTrailingSlash (s : String) : String :=
  if s.data.getLast? = some '/' then { data := s.data.dropLast } else s

/-- Whether the string ends in two consecutive slashes.  (Used to state
the amended no-double-slash property.) -/
def endsWith2Slashes (s : String) : Bool :=
  s.data.getLast? == some '/' && s.data.dropLast.getLast? == some '/'

/-- The concatenation `site ++ p` contains a double slash spanning the
join point exactly when `site` ends with a slash and `p` starts with
one. -/
def hasDoubleSlashAtJoin (site p : String) : Bool :=
  site.data.getLast? == some '/' && p.data.head? == some '/'

/-- Node's `path.join(dir, p)` for the shapes this plugin uses: a
directory without a trailing slash joined with a relative path; a
leading slash on `p` acts as the separator. -/
def pathJoin (dir p : String) : String :=
  match p.data with
  | '/' :: _ => dir ++ p
  | _ => dir ++ "/" ++ p

/-- UTF-8 bytes of a character, as natural numbers below 256. -/
def utf8Bytes (c : Char) : List Nat :=
  let n := c.toNat
  if n < 128 then [n]
  else if n < 2048 then [192 + n / 64, 128 + n % 64]
  else if n < 65536 then [224 + n / 4096, 128 + (n / 64) % 64, 128 + n % 64]
  else [240 + n / 262144, 128 + (n / 4096) % 64, 128 + (n / 64) % 64, 128 + n % 64]

/-- Uppercase hexadecimal digit for a value below 16. -/
def hexDigit (n : Nat) : Char :=
  if n < 10 then Char.ofNat (48 + n) else Char.ofNat (55 + n)

/-- Percent-encoding of one byte, `%XX` with uppercase hex. -/
def percentByte (b : Nat) : List Char :=
  ['%', hexDigit (b / 16), hexDigit (b % 16)]

/-- The characters ECMAScript `encodeURIComponent` leaves unescaped:
letters, digits, and `- _ . ! ~ * ' ( )`. -/
def isUnreservedURI (c : Char) : Bool :=
  (65 ≤ c.toNat && c.toNat ≤ 90) || (97 ≤ c.toNat && c.toNat ≤ 122) ||
  (48 ≤ c.toNat && c.toNat ≤ 57) ||
  c = '-' || c = '_' || c = '.' || c = '!' || c = '~' || c = '*' ||
  c.toNat = 39 || c = '(' || c = ')'

/-- ECMAScript `encodeURIComponent`: unreserved characters pass through,
every other character is replaced by the percent-encoding of its UTF-8
bytes. -/
def encodeURIComponent (s : String) : String :=
  { data := s.data.flatMap fun c =>
      if isUnreservedURI c then [c] else (utf8Bytes c).flatMap percentByte }

/-- The plugin inputs `inputs.siteUrl` and `inputs.sitemapPath`;
`none` models an absent input. -/
structure PluginInputs where
  siteUrl : Option String := none
  sitemapPath : Option String := none

/-- Line 31: `const siteUrl = (inputs.siteUrl || process.env.URL || "").replace(/\/$/, "")`. -/
def resolvedSiteUrl (inputs : PluginInputs) (envURL : Option String) : String :=
  stripTrailingSlash (jsOr (jsOr (jsString inputs.siteUrl) (jsString envURL)) "")

/-- Line 38: `const sitemapPath = inputs.sitemapPath || "/sitemap-index.xml"`. -/
def resolvedSitemapPath (inputs : PluginInputs) : String :=
  jsOr (jsString inputs.sitemapPath) "/sitemap-index.xml"

/-- The ordered fallback list probed when the configured path is absent. -/
def alternatives : List String :=
  ["/sitemap.xml", "/sitemap-index.xml", "/sitemap-0.xml"]

/-- Warning logged when no site URL can be resolved. -/
def noSiteUrlMsg : String :=
  "⚠️  Sitemap Ping: No site URL found. Set siteUrl in plugin inputs or ensure URL env var is set."

/-- Warning logged when neither the configured path nor a fallback exists. -/
def noSitemapMsg (sitemapPath : String) : String :=
  "⚠️  Sitemap Ping: No sitemap found at " ++ sitemapPath ++ ". Skipping."

/-- Informational line logged when a fallback path is found. -/
def fallbackMsg (sitemapPath found : String) : String :=
  "   Sitemap not at " ++ sitemapPath ++ ", using " ++ found ++ " instead."

/-- Completion marker logged after all targets are processed. -/
def doneMsg : String :=
  "\n   Done — search engines notified.\n"

/-- The fixed target list built from the absolute sitemap URL:
Google, Bing (IndexNow), Yandex, in this order, each with the sitemap
URL percent-encoded as the query parameter value. -/
def targets (sitemapUrl : String) : List Target :=
  [ ⟨"Google", "https://www.google.com/ping?sitemap=" ++ encodeURIComponent sitemapUrl⟩,
    ⟨"Bing (IndexNow)", "https://www.bing.com/ping?sitemap=" ++ encodeURIComponent sitemapUrl⟩,
    ⟨"Yandex", "https://yandex.com/ping?sitemap=" ++ encodeURIComponent sitemapUrl⟩ ]

/-- The per-target outcome line: the `try`/`catch` around `httpGet` in
the loop body, classifying the result of the request. -/
def pingOutcomeLog (name : String) : Except String HttpResponse → String
  | .ok res => "   " ++ (if res.status < 300 then "✅" else "⚠️  " ++ toString res.status) ++ " " ++ name
  | .error msg => "   ❌ " ++ name ++ ": " ++ msg

/-- One iteration of the target loop: issue the GET and log exactly one
outcome line for the target. -/
def pingTarget (net : Net) (t : Target) : List Event :=
  [Event.netGet t.url, Event.log (pingOutcomeLog t.name (net t.url))]

/-- The sequential `for (const target of targets)` loop. -/
def pingAll (net : Net) : List Target → List Event
  | [] => []
  | t :: ts => pingTarget net t ++ pingAll net ts

/-- Phase 3: the banner lines, the fan-out over all targets, and the
completion marker. -/
def pingPhase (sitemapUrl : String) (net : Net) : List Event :=
  Event.log "\n📡 Sitemap Ping — notifying search engines...\n" ::
  Event.log ("   Sitemap: " ++ sitemapUrl ++ "\n") ::
  pingAll net (targets sitemapUrl) ++ [Event.log doneMsg]

/-- The fallback probe loop: check each alternative in order under the
publish directory, stopping at the first that exists. -/
def probeAlternatives (publishDir : String) (w : World) :
    List String → World × Option String × List Event
  | [] => (w, none, [])
  | alt :: rest =>
    match existsSync w (pathJoin publishDir alt) with
    | (w1, true) => (w1, some alt, [Event.fsCheck (pathJoin publishDir alt)])
    | (w1, false) =>
      match probeAlternatives publishDir w1 rest with
      | (w2, r, evs) => (w2, r, Event.fsCheck (pathJoin publishDir alt) :: evs)

/-- The `onSuccess` hook of `src/index.js`, returning the post-run
world and the trace of observable events.  An uncaught exception would
be an `Except.error`; every path in the source returns normally. -/
def onSuccess (inputs : PluginInputs) (envURL : Option String) (publishDir : String)
    (w : World) (net : Net) : Except String (World × List Event) :=
  let siteUrl := resolvedSiteUrl inputs envURL
  if siteUrl = "" then
    Except.ok (w, [Event.log noSiteUrlMsg])
  else
    let sitemapPath := resolvedSitemapPath inputs
    let sitemapUrl := siteUrl ++ sitemapPath
    let localSitemap := pathJoin publishDir sitemapPath
    match existsSync w localSitemap with
    | (w1, true) =>
      Except.ok (w1, Event.fsCheck localSitemap :: pingPhase sitemapUrl net)
    | (w1, false) =>
      match probeAlternatives publishDir w1 alternatives with
      | (w2, none, probeEvents) =>
        Except.ok (w2, Event.fsCheck localSitemap ::
          (probeEvents ++ [Event.log (noSitemapMsg sitemapPath)]))
      | (w2, some found, probeEvents) =>
        Except.ok (w2, Event.fsCheck localSitemap ::
          (probeEvents ++ Event.log (fallbackMsg sitemapPath found) :: pingPhase sitemapUrl net))

/-- The URLs of the GET requests issued during a trace, in order. -/
def netEvents : List Event → List String
  | [] => []
  | Event.netGet u :: es => u :: netEvents es
  | Event.log _ :: es => netEvents es
  | Event.fsCheck _ :: es => netEvents es

/-- The paths whose existence the run checked, in order. -/
def fsEvents : List Event → List String
  | [] => []
  | Event.fsCheck p :: es => p :: fsEvents es
  | Event.log _ :: es => fsEvents es
  | Event.netGet _ :: es => fsEvents es

/-- The log lines of a trace, in order. -/
def logEvents : List Event → List String
  | [] => []
  | Event.log m :: es => m :: logEvents es
  | Event.fsCheck _ :: es => logEvents es
  | Event.netGet _ :: es => logEvents es

/-- The trace of a run (empty if the run raised, which never happens). -/
def runTrace (inputs : PluginInputs) (envURL : Option String) (publishDir : String)
    (w : World) (net : Net) : List Event :=
  match onSuccess inputs envURL publishDir w net with
  | .ok (_, evs) => evs
  | .error _ => []

/-! ## Structural lemmas about traces -/

theorem netEvents_append (a b : List Event) :
    netEvents (a ++ b) = netEvents a ++ netEvents b := by
  induction a with
  | nil => rfl
  | cons e es ih => cases e <;> simp [netEvents, ih]

theorem fsEvents_append (a b : List Event) :
    fsEvents (a ++ b) = fsEvents a ++ fsEvents b := by
  induction a with
  | nil => rfl
  | cons e es ih => cases e <;> simp [fsEvents, ih]

theorem logEvents_append (a b : List Event) :
    logEvents (a ++ b) = logEvents a ++ logEvents b := by
  induction a with
  | nil => rfl
  | cons e es ih => cases e <;> simp [logEvents, ih]

theorem netEvents_pingAll (net : Net) (ts : List Target) :
    netEvents (pingAll net ts) = ts.map Target.url := by
  induction ts with
  | nil => rfl
  | cons t ts ih => simp [pingAll, pingTarget, netEvents, ih]

theorem fsEvents_pingAll (net : Net) (ts : List Target) :
    fsEvents (pingAll net ts) = [] := by
  induction ts with
  | nil => rfl
  | cons t ts ih => simp [pingAll, pingTarget, fsEvents, ih]

theorem netEvents_pingPhase (u : String) (net : Net) :
    netEvents (pingPhase u net) = (targets u).map Target.url := by
  simp [pingPhase, netEvents, netEvents_append, netEvents_pingAll, targets]

theorem fsEvents_pingPhase (u : String) (net : Net) :
    fsEvents (pingPhase u net) = [] := by
  simp [pingPhase, fsEvents, fsEvents_append, fsEvents_pingAll]

theorem pingPhase_getLast (u : String) (net : Net) (pre : List Event) :
    (pre ++ pingPhase u net).getLast? = some (Event.log doneMsg) := by
  have h : pre ++ pingPhase u net =
      (pre ++ (Event.log "\n📡 Sitemap Ping — notifying search engines...\n" ::
        Event.log ("   Sitemap: " ++ u ++ "\n") :: pingAll net (targets u))) ++
        [Event.log doneMsg] := by
    simp [pingPhase]
  rw [h, List.getLast?_concat]

theorem lastIsDone (c : Event) (P : List Event) (m : Event) (u : String) (net : Net) :
    (c :: (P ++ m :: pingPhase u net)).getLast? = some (Event.log doneMsg) := by
  have h : c :: (P ++ m :: pingPhase u net) = (c :: P ++ [m]) ++ pingPhase u net := by
    simp
  rw [h]
  exact pingPhase_getLast u net (c :: P ++ [m])

theorem netEvents_map_fsCheck (xs : List String) (g : String → String) :
    netEvents (xs.map fun a => Event.fsCheck (g a)) = [] := by
  induction xs with
  | nil => rfl
  | cons x xs ih => simp [netEvents, ih]

theorem fsEvents_map_fsCheck (xs : List String) (g : String → String) :
    fsEvents (xs.map fun a => Event.fsCheck (g a)) = xs.map g := by
  induction xs with
  | nil => rfl
  | cons x xs ih => simp [fsEvents, ih]

/-- Characterization of the fallback probe loop: the world is returned
unchanged, the result is the first alternative that exists, and the
trace records exactly the alternatives up to and including the first
hit, in order. -/
theorem probeAlternatives_spec (pub : String) (w : World) (l : List String) :
    probeAlternatives pub w l =
      (w, l.find? (fun a => w.files (pathJoin pub a)),
        ((l.takeWhile fun a => !w.files (pathJoin pub a)) ++
          (l.dropWhile fun a => !w.files (pathJoin pub a)).take 1).map
            fun a => Event.fsCheck (pathJoin pub a)) := by
  induction l with
  | nil => rfl
  | cons a rest ih =>
    cases h : w.files (pathJoin pub a) with
    | true => simp [probeAlternatives, existsSync, h]
    | false => simp [probeAlternatives, existsSync, h, ih]

/-- Unfolding of the run when the configured sitemap path exists. -/
theorem onSuccess_configured_exists (inputs : PluginInputs) (envURL : Option String)
    (pub : String) (w : World) (net : Net)
    (hsite : ¬ resolvedSiteUrl inputs envURL = "")
    (hconf : w.files (pathJoin pub (resolvedSitemapPath inputs)) = true) :
    onSuccess inputs envURL pub w net =
      Except.ok (w, Event.fsCheck (pathJoin pub (resolvedSitemapPath inputs)) ::
        pingPhase (resolvedSiteUrl inputs envURL ++ resolvedSitemapPath inputs) net) := by
  simp [onSuccess, existsSync, hconf, hsite]

/-- Unfolding of the run when the configured path is absent but a
fallback exists. -/
theorem onSuccess_fallback (inputs : PluginInputs) (envURL : Option String)
    (pub : String) (w : World) (net : Net) (found : String)
    (hsite : ¬ resolvedSiteUrl inputs envURL = "")
    (hconf : w.files (pathJoin pub (resolvedSitemapPath inputs)) = false)
    (hfound : alternatives.find? (fun a => w.files (pathJoin pub a)) = some found) :
    onSuccess inputs envURL pub w net =
      Except.ok (w, Event.fsCheck (pathJoin pub (resolvedSitemapPath inputs)) ::
        (((alternatives.takeWhile fun a => !w.files (pathJoin pub a)) ++
            (alternatives.dropWhile fun a => !w.files (pathJoin pub a)).take 1).map
              (fun a => Event.fsCheck (pathJoin pub a)) ++
          Event.log (fallbackMsg (resolvedSitemapPath inputs) found) ::
            pingPhase (resolvedSiteUrl inputs envURL ++ resolvedSitemapPath inputs) net)) := by
  simp [onSuccess, existsSync, hconf, hsite, probeAlternatives_spec, hfound]

/-- Unfolding of the run when neither the configured path nor any
fallback exists. -/
theorem onSuccess_none_found (inputs : PluginInputs) (envURL : Option String)
    (pub : String) (w : World) (net : Net)
    (hsite : ¬ resolvedSiteUrl inputs envURL = "")
    (hconf : w.files (pathJoin pub (resolvedSitemapPath inputs)) = false)
    (hnone : alternatives.find? (fun a => w.files (pathJoin pub a)) = none) :
    onSuccess inputs envURL pub w net =
      Except.ok (w, Event.fsCheck (pathJoin pub (resolvedSitemapPath inputs)) ::
        (((alternatives.takeWhile fun a => !w.files (pathJoin pub a)) ++
            (alternatives.dropWhile fun a => !w.files (pathJoin pub a)).take 1).map
              (fun a => Event.fsCheck (pathJoin pub a)) ++
          [Event.log (noSitemapMsg (resolvedSitemapPath inputs))])) := by
  simp [onSuccess, existsSync, hconf, hsite, probeAlternatives_spec, hnone]

/-- Unfolding of the run when no site URL resolves. -/
theorem onSuccess_no_site_url (inputs : PluginInputs) (envURL : Option String)
    (pub : String) (w : World) (net : Net)
    (hsite : resolvedSiteUrl inputs envURL = "") :
    onSuccess inputs envURL pub w net = Except.ok (w, [Event.log noSiteUrlMsg]) := by
  simp [onSuccess, hsite]

/-! ## Claims -/

/-- C3: if both `inputs.siteUrl` and the environment variable `URL` are
empty or absent, the run logs one warning naming both configuration
mechanisms (`siteUrl` and `URL`), performs zero filesystem existence
checks and zero network requests, and returns successfully. -/
theorem C3_unresolved_site_url (inputs : PluginInputs) (envURL : Option String)
    (publishDir : String) (w : World) (net : Net)
    (h1 : jsString inputs.siteUrl = "") (h2 : jsString envURL = "") :
    onSuccess inputs envURL publishDir w net = Except.ok (w, [Event.log noSiteUrlMsg]) ∧
    fsEvents (runTrace inputs envURL publishDir w net) = [] ∧
    netEvents (runTrace inputs envURL publishDir w net) = [] ∧
    "siteUrl".data <:+: noSiteUrlMsg.data ∧
    "URL".data <:+: noSiteUrlMsg.data := by
  have hres : resolvedSiteUrl inputs envURL = "" := by
    unfold resolvedSiteUrl
    rw [h1, h2]
    decide
  have hrun := onSuccess_no_site_url inputs envURL publishDir w net hres
  exact ⟨hrun, by simp [runTrace, hrun, fsEvents], by simp [runTrace, hrun, netEvents],
    by decide, by decide⟩

theorem C3_witness :
    onSuccess ⟨none, none⟩ none "/pub" ⟨fun _ => true⟩ (fun _ => Except.ok ⟨200, ""⟩) =
      Except.ok (⟨fun _ => true⟩, [Event.log noSiteUrlMsg]) ∧
    fsEvents (runTrace ⟨none, none⟩ none "/pub" ⟨fun _ => true⟩
      (fun _ => Except.ok ⟨200, ""⟩)) = [] ∧
    netEvents (runTrace ⟨none, none⟩ none "/pub" ⟨fun _ => true⟩
      (fun _ => Except.ok ⟨200, ""⟩)) = [] ∧
    "siteUrl".data <:+: noSiteUrlMsg.data ∧
    "URL".data <:+: noSiteUrlMsg.data :=
  C3_unresolved_site_url ⟨none, none⟩ none "/pub" ⟨fun _ => true⟩
    (fun _ => Except.ok ⟨200, ""⟩) rfl rfl

/-- C10: a supplied site URL consisting of the single character `/`
(whether through `inputs.siteUrl` or the `URL` environment variable) is
stripped to the empty string, so the run behaves as
configuration-unresolved: it logs the no-site-URL warning and stops
with no filesystem checks and no network requests. -/
theorem C10_slash_site_url (inputs : PluginInputs) (envURL : Option String)
    (publishDir : String) (w : World) (net : Net)
    (h : jsOr (jsString inputs.siteUrl) (jsString envURL) = "/") :
    onSuccess inputs envURL publishDir w net = Except.ok (w, [Event.log noSiteUrlMsg]) ∧
    fsEvents (runTrace inputs envURL publishDir w net) = [] ∧
    netEvents (runTrace inputs envURL publishDir w net) = [] := by
  have hres : resolvedSiteUrl inputs envURL = "" := by
    unfold resolvedSiteUrl
    rw [h]
    decide
  have hrun := onSuccess_no_site_url inputs envURL publishDir w net hres
  exact ⟨hrun, by simp [runTrace, hrun, fsEvents], by simp [runTrace, hrun, netEvents]⟩

theorem C10_witness :
    onSuccess ⟨some "/", none⟩ none "/pub" ⟨fun _ => true⟩ (fun _ => Except.ok ⟨200, ""⟩) =
      Except.ok (⟨fun _ => true⟩, [Event.log noSiteUrlMsg]) ∧
    fsEvents (runTrace ⟨some "/", none⟩ none "/pub" ⟨fun _ => true⟩
      (fun _ => Except.ok ⟨200, ""⟩)) = [] ∧
    netEvents (runTrace ⟨some "/", none⟩ none "/pub" ⟨fun _ => true⟩
      (fun _ => Except.ok ⟨200, ""⟩)) = [] :=
  C10_slash_site_url ⟨some "/", none⟩ none "/pub" ⟨fun _ => true⟩
    (fun _ => Except.ok ⟨200, ""⟩) rfl

/-- C5: if neither the configured sitemap path nor any fallback exists
under the publish directory, the run checks exactly the four paths,
logs a warning that contains the configured path, makes zero network
requests, and terminates successfully. -/
theorem C5_nothing_found (inputs : PluginInputs) (envURL : Option String)
    (publishDir : String) (w : World) (net : Net)
    (hsite : ¬ resolvedSiteUrl inputs envURL = "")
    (hconf : w.files (pathJoin publishDir (resolvedSitemapPath inputs)) = false)
    (halts : ∀ a ∈ alternatives, w.files (pathJoin publishDir a) = false) :
    onSuccess inputs envURL publishDir w net =
      Except.ok (w,
        [Event.fsCheck (pathJoin publishDir (resolvedSitemapPath inputs)),
         Event.fsCheck (pathJoin publishDir "/sitemap.xml"),
         Event.fsCheck (pathJoin publishDir "/sitemap-index.xml"),
         Event.fsCheck (pathJoin publishDir "/sitemap-0.xml"),
         Event.log (noSitemapMsg (resolvedSitemapPath inputs))]) ∧
    netEvents (runTrace inputs envURL publishDir w net) = [] ∧
    (resolvedSitemapPath inputs).data <:+: (noSitemapMsg (resolvedSitemapPath inputs)).data := by
  have ha1 := halts "/sitemap.xml" (by simp [alternatives])
  have ha2 := halts "/sitemap-index.xml" (by simp [alternatives])
  have ha3 := halts "/sitemap-0.xml" (by simp [alternatives])
  have hnone : alternatives.find? (fun a => w.files (pathJoin publishDir a)) = none := by
    simp [alternatives, List.find?, ha1, ha2, ha3]
  have hrun := onSuccess_none_found inputs envURL publishDir w net hsite hconf hnone
  refine ⟨?_, ?_, ?_⟩
  · rw [hrun]
    simp [alternatives, ha1, ha2, ha3]
  · simp [runTrace, hrun, alternatives, ha1, ha2, ha3, netEvents, netEvents_append]
  · exact ⟨"⚠️  Sitemap Ping: No sitemap found at ".data, ". Skipping.".data,
      by simp [noSitemapMsg, String.data_append]⟩

theorem C5_witness :
    onSuccess ⟨some "https://example.com", none⟩ none "/pub" ⟨fun _ => false⟩
        (fun _ => Except.ok ⟨200, ""⟩) =
      Except.ok (⟨fun _ => false⟩,
        [Event.fsCheck (pathJoin "/pub" (resolvedSitemapPath ⟨some "https://example.com", none⟩)),
         Event.fsCheck (pathJoin "/pub" "/sitemap.xml"),
         Event.fsCheck (pathJoin "/pub" "/sitemap-index.xml"),
         Event.fsCheck (pathJoin "/pub" "/sitemap-0.xml"),
         Event.log (noSitemapMsg (resolvedSitemapPath ⟨some "https://example.com", none⟩))]) ∧
    netEvents (runTrace ⟨some "https://example.com", none⟩ none "/pub" ⟨fun _ => false⟩
      (fun _ => Except.ok ⟨200, ""⟩)) = [] ∧
    (resolvedSitemapPath ⟨some "https://example.com", none⟩).data <:+:
      (noSitemapMsg (resolvedSitemapPath ⟨some "https://example.com", none⟩)).data :=
  C5_nothing_found ⟨some "https://example.com", none⟩ none "/pub" ⟨fun _ => false⟩
    (fun _ => Except.ok ⟨200, ""⟩) (by decide) rfl (by decide)

/-- C4: when the configured sitemap path is absent, the filesystem
checks performed are exactly the configured path followed by the
fallback paths in their fixed order up to and including the first one
that exists: every probed fallback before the hit does not exist, and
nothing after the first hit is probed. -/
theorem C4_probe_order (inputs : PluginInputs) (envURL : Option String)
    (publishDir : String) (w : World) (net : Net)
    (hsite : ¬ resolvedSiteUrl inputs envURL = "")
    (hconf : w.files (pathJoin publishDir (resolvedSitemapPath inputs)) = false) :
    fsEvents (runTrace inputs envURL publishDir w net) =
      pathJoin publishDir (resolvedSitemapPath inputs) ::
        ((alternatives.takeWhile fun a => !w.files (pathJoin publishDir a)) ++
          (alternatives.dropWhile fun a => !w.files (pathJoin publishDir a)).take 1).map
            (pathJoin publishDir) := by
  cases hf : alternatives.find? (fun a => w.files (pathJoin publishDir a)) with
  | none =>
    have hrun := onSuccess_none_found inputs envURL publishDir w net hsite hconf hf
    simp [runTrace, hrun, fsEvents, fsEvents_append, fsEvents_map_fsCheck, ← List.map_take]
  | some found =>
    have hrun := onSuccess_fallback inputs envURL publishDir w net found hsite hconf hf
    simp [runTrace, hrun, fsEvents, fsEvents_append, fsEvents_map_fsCheck, fsEvents_pingPhase,
      ← List.map_take]

theorem C4_witness :
    fsEvents (runTrace ⟨some "https://example.com", none⟩ none "/pub"
        ⟨fun p => p == "/pub/sitemap.xml"⟩ (fun _ => Except.ok ⟨200, ""⟩)) =
      pathJoin "/pub" (resolvedSitemapPath ⟨some "https://example.com", none⟩) ::
        ((alternatives.takeWhile fun a =>
            !(⟨fun p => p == "/pub/sitemap.xml"⟩ : World).files (pathJoin "/pub" a)) ++
          (alternatives.dropWhile fun a =>
            !(⟨fun p => p == "/pub/sitemap.xml"⟩ : World).files (pathJoin "/pub" a)).take 1).map
            (pathJoin "/pub") :=
  C4_probe_order ⟨some "https://example.com", none⟩ none "/pub"
    ⟨fun p => p == "/pub/sitemap.xml"⟩ (fun _ => Except.ok ⟨200, ""⟩) (by decide) rfl

/-- C1: when the configured sitemap path is absent but a fallback
exists, the run still pings the URLs built from the originally
configured `sitemapPath` (the target list is constructed from
`resolvedSiteUrl ++ resolvedSitemapPath`), and the discovered fallback
path appears only in a log line. -/
theorem C1_ping_uses_configured_path (inputs : PluginInputs) (envURL : Option String)
    (publishDir : String) (w : World) (net : Net) (found : String)
    (hsite : ¬ resolvedSiteUrl inputs envURL = "")
    (hconf : w.files (pathJoin publishDir (resolvedSitemapPath inputs)) = false)
    (hfound : alternatives.find? (fun a => w.files (pathJoin publishDir a)) = some found) :
    ∃ evs, onSuccess inputs envURL publishDir w net = Except.ok (w, evs) ∧
      netEvents evs =
        (targets (resolvedSiteUrl inputs envURL ++ resolvedSitemapPath inputs)).map
          Target.url ∧
      Event.log (fallbackMsg (resolvedSitemapPath inputs) found) ∈ evs := by
  have hrun := onSuccess_fallback inputs envURL publishDir w net found hsite hconf hfound
  refine ⟨_, hrun, ?_, ?_⟩
  · simp [netEvents, netEvents_append, netEvents_map_fsCheck, netEvents_pingPhase, targets,
      ← List.map_take]
  · simp

theorem C1_witness :
    ∃ evs, onSuccess ⟨some "https://example.com", none⟩ none "/pub"
        ⟨fun p => p == "/pub/sitemap.xml"⟩ (fun _ => Except.ok ⟨200, ""⟩) =
      Except.ok (⟨fun p => p == "/pub/sitemap.xml"⟩, evs) ∧
      netEvents evs =
        (targets (resolvedSiteUrl ⟨some "https://example.com", none⟩ none ++
          resolvedSitemapPath ⟨some "https://example.com", none⟩)).map Target.url ∧
      Event.log (fallbackMsg (resolvedSitemapPath ⟨some "https://example.com", none⟩)
        "/sitemap.xml") ∈ evs :=
  C1_ping_uses_configured_path ⟨some "https://example.com", none⟩ none "/pub"
    ⟨fun p => p == "/pub/sitemap.xml"⟩ (fun _ => Except.ok ⟨200, ""⟩) "/sitemap.xml"
    (by decide) rfl (by decide)

/-- C6: with `siteUrl = "https://example.com/"`, no `sitemapPath`
input (so the default `/sitemap-index.xml` applies) and a publish
directory containing `sitemap-index.xml`, exactly three GET requests
are issued, in order, to the Google, Bing and Yandex ping endpoints,
with the sitemap URL percent-encoded as the query parameter value. -/
theorem C6_end_to_end (net : Net) :
    netEvents (runTrace ⟨some "https://example.com/", none⟩ none "/pub"
        ⟨fun p => p == "/pub/sitemap-index.xml"⟩ net) =
      [ "https://www.google.com/ping?sitemap=https%3A%2F%2Fexample.com%2Fsitemap-index.xml",
        "https://www.bing.com/ping?sitemap=https%3A%2F%2Fexample.com%2Fsitemap-index.xml",
        "https://yandex.com/ping?sitemap=https%3A%2F%2Fexample.com%2Fsitemap-index.xml" ] := rfl

/-- C7: each target produces exactly one outcome log line, classified
by the result of its request: a success marker with the target name
for a status strictly below 300, the status code with the target name
for a status of 300 or more, and the target name with the error
message on a transport-level failure. -/
theorem C7_outcome_classification (net : Net) (t : Target) :
    logEvents (pingTarget net t) = [pingOutcomeLog t.name (net t.url)] ∧
    (∀ res, net t.url = Except.ok res → res.status < 300 →
      pingOutcomeLog t.name (net t.url) = "   " ++ "✅" ++ " " ++ t.name) ∧
    (∀ res, net t.url = Except.ok res → 300 ≤ res.status →
      pingOutcomeLog t.name (net t.url) =
        "   " ++ ("⚠️  " ++ toString res.status) ++ " " ++ t.name) ∧
    (∀ msg, net t.url = Except.error msg →
      pingOutcomeLog t.name (net t.url) = "   ❌ " ++ t.name ++ ": " ++ msg) := by
  refine ⟨rfl, ?_, ?_, ?_⟩
  · intro res hres hlt
    rw [hres]
    simp [pingOutcomeLog, hlt]
  · intro res hres hge
    rw [hres]
    simp [pingOutcomeLog, Nat.not_lt.mpr hge]
  · intro msg hmsg
    rw [hmsg]
    rfl

theorem C7_witness :
    pingOutcomeLog "Google"
        ((fun _ => Except.ok ⟨200, ""⟩ : Net) "https://www.google.com/ping?sitemap=x") =
      "   " ++ "✅" ++ " " ++ "Google" :=
  (C7_outcome_classification (fun _ => Except.ok ⟨200, ""⟩)
    ⟨"Google", "https://www.google.com/ping?sitemap=x"⟩).2.1 ⟨200, ""⟩ rfl (by decide)

/-- C8: once phase 3 is reached, no combination of per-target outcomes
raises an error: for every network behavior the hook returns normally,
all three targets are pinged, and the completion marker is the last
logged event. -/
theorem C8_all_targets_processed (inputs : PluginInputs) (envURL : Option String)
    (publishDir : String) (w : World)
    (hsite : ¬ resolvedSiteUrl inputs envURL = "")
    (hex : w.files (pathJoin publishDir (resolvedSitemapPath inputs)) = true ∨
      (w.files (pathJoin publishDir (resolvedSitemapPath inputs)) = false ∧
        ∃ found, alternatives.find? (fun a => w.files (pathJoin publishDir a)) = some found)) :
    ∀ net : Net, ∃ evs,
      onSuccess inputs envURL publishDir w net = Except.ok (w, evs) ∧
      netEvents evs =
        (targets (resolvedSiteUrl inputs envURL ++ resolvedSitemapPath inputs)).map
          Target.url ∧
      (netEvents evs).length = 3 ∧
      evs.getLast? = some (Event.log doneMsg) := by
  intro net
  rcases hex with hconf | ⟨hconf, found, hfound⟩
  · have hrun := onSuccess_configured_exists inputs envURL publishDir w net hsite hconf
    refine ⟨_, hrun, ?_, ?_, ?_⟩
    · simp [netEvents, netEvents_pingPhase, targets]
    · simp [netEvents, netEvents_pingPhase, targets]
    · exact pingPhase_getLast _ net
        [Event.fsCheck (pathJoin publishDir (resolvedSitemapPath inputs))]
  · have hrun := onSuccess_fallback inputs envURL publishDir w net found hsite hconf hfound
    refine ⟨_, hrun, ?_, ?_, ?_⟩
    · simp [netEvents, netEvents_append, netEvents_map_fsCheck, netEvents_pingPhase, targets,
        ← List.map_take]
    · simp [netEvents, netEvents_append, netEvents_map_fsCheck, netEvents_pingPhase, targets,
        ← List.map_take]
    · exact lastIsDone _ _ _ _ net

theorem C8_witness :
    ∃ evs, onSuccess ⟨some "https://example.com", none⟩ none "/pub"
        ⟨fun p => p == "/pub/sitemap-index.xml"⟩
        (fun u =>
          if u = "https://www.google.com/ping?sitemap=https%3A%2F%2Fexample.com%2Fsitemap-index.xml"
          then Except.ok ⟨200, ""⟩
          else if u = "https://www.bing.com/ping?sitemap=https%3A%2F%2Fexample.com%2Fsitemap-index.xml"
          then Except.ok ⟨404, ""⟩
          else Except.error "connect ECONNREFUSED") =
      Except.ok (⟨fun p => p == "/pub/sitemap-index.xml"⟩, evs) ∧
      netEvents evs =
        (targets (resolvedSiteUrl ⟨some "https://example.com", none⟩ none ++
          resolvedSitemapPath ⟨some "https://example.com", none⟩)).map Target.url ∧
      (netEvents evs).length = 3 ∧
      evs.getLast? = some (Event.log doneMsg) :=
  C8_all_targets_processed ⟨some "https://example.com", none⟩ none "/pub"
    ⟨fun p => p == "/pub/sitemap-index.xml"⟩ (by decide) (Or.inl (by decide))
    (fun u =>
      if u = "https://www.google.com/ping?sitemap=https%3A%2F%2Fexample.com%2Fsitemap-index.xml"
      then Except.ok ⟨200, ""⟩
      else if u = "https://www.bing.com/ping?sitemap=https%3A%2F%2Fexample.com%2Fsitemap-index.xml"
      then Except.ok ⟨404, ""⟩
      else Except.error "connect ECONNREFUSED")

/-- C9: the hook is read-only and deterministic: it always returns
successfully with the world unchanged (no state written to disk), and
running it again from the resulting world yields the identical result,
hence the same sequence of log classifications. -/
theorem C9_idempotent (inputs : PluginInputs) (envURL : Option String)
    (publishDir : String) (w : World) (net : Net) :
    ∃ evs, onSuccess inputs envURL publishDir w net = Except.ok (w, evs) ∧
      ∀ w1 evs1, onSuccess inputs envURL publishDir w net = Except.ok (w1, evs1) →
        w1 = w ∧ onSuccess inputs envURL publishDir w1 net = Except.ok (w1, evs1) := by
  have hok : ∃ evs, onSuccess inputs envURL publishDir w net = Except.ok (w, evs) := by
    by_cases hs : resolvedSiteUrl inputs envURL = ""
    · exact ⟨_, onSuccess_no_site_url inputs envURL publishDir w net hs⟩
    · cases hc : w.files (pathJoin publishDir (resolvedSitemapPath inputs)) with
      | true => exact ⟨_, onSuccess_configured_exists inputs envURL publishDir w net hs hc⟩
      | false =>
        cases hf : alternatives.find? (fun a => w.files (pathJoin publishDir a)) with
        | none => exact ⟨_, onSuccess_none_found inputs envURL publishDir w net hs hc hf⟩
        | some found =>
          exact ⟨_, onSuccess_fallback inputs envURL publishDir w net found hs hc hf⟩
  obtain ⟨evs, hevs⟩ := hok
  refine ⟨evs, hevs, ?_⟩
  intro w1 evs1 h1
  rw [hevs] at h1
  obtain ⟨hw, he⟩ : w = w1 ∧ evs = evs1 := by simpa using h1
  subst hw
  subst he
  exact ⟨rfl, hevs⟩

theorem C9_witness :
    ∃ evs, onSuccess ⟨some "https://example.com", none⟩ none "/pub"
        ⟨fun p => p == "/pub/sitemap-index.xml"⟩ (fun _ => Except.ok ⟨200, ""⟩) =
      Except.ok (⟨fun p => p == "/pub/sitemap-index.xml"⟩, evs) ∧
      ∀ w1 evs1, onSuccess ⟨some "https://example.com", none⟩ none "/pub"
          ⟨fun p => p == "/pub/sitemap-index.xml"⟩ (fun _ => Except.ok ⟨200, ""⟩) =
        Except.ok (w1, evs1) →
        w1 = ⟨fun p => p == "/pub/sitemap-index.xml"⟩ ∧
        onSuccess ⟨some "https://example.com", none⟩ none "/pub" w1
          (fun _ => Except.ok ⟨200, ""⟩) = Except.ok (w1, evs1) :=
  C9_idempotent ⟨some "https://example.com", none⟩ none "/pub"
    ⟨fun p => p == "/pub/sitemap-index.xml"⟩ (fun _ => Except.ok ⟨200, ""⟩)

/-- C2 counterexample: the resolver strips only one trailing slash, so
the siteUrl input "https://example.com//" resolves to
"https://example.com/" and concatenating it with the leading-slash
sitemap path yields a double slash at the join point, contradicting
the claim that this can never happen for a resolved configuration. -/
theorem C2_counterexample :
    hasDoubleSlashAtJoin (stripTrailingSlash "https://example.com//")
      "/sitemap-index.xml" = true ∧
    stripTrailingSlash "https://example.com//" ++ "/sitemap-index.xml" =
      "https://example.com//sitemap-index.xml" :=
  ⟨by decide, by decide⟩

/-- C2 (amended): a trailing slash on the input is removed (exactly
one) and inputs without a trailing slash are unchanged; provided the
input does not end in two consecutive slashes, concatenating the
resolved site URL with a sitemap path never produces a double slash at
the join point. -/
theorem C2_trailing_slash (s p : String) :
    (s.data.getLast? = some '/' → (stripTrailingSlash s).data = s.data.dropLast) ∧
    (s.data.getLast? ≠ some '/' → stripTrailingSlash s = s) ∧
    (endsWith2Slashes s = false →
      hasDoubleSlashAtJoin (stripTrailingSlash s) p = false) := by
  by_cases hl : s.data.getLast? = some '/'
  · refine ⟨fun _ => ?_, fun hn => absurd hl hn, fun h2 => ?_⟩
    · simp [stripTrailingSlash, hl]
    · have hd : s.data.dropLast.getLast? ≠ some '/' := by
        intro hdd
        simp [endsWith2Slashes, hl, hdd] at h2
      simp [hasDoubleSlashAtJoin, stripTrailingSlash, hl, hd]
  · refine ⟨fun hll => absurd hll hl, fun _ => ?_, fun _ => ?_⟩
    · simp [stripTrailingSlash, hl]
    · simp [hasDoubleSlashAtJoin, stripTrailingSlash, hl]

theorem C2_witness :
    (stripTrailingSlash "https://example.com/").data =
      "https://example.com/".data.dropLast ∧
    stripTrailingSlash "https://example.com" = "https://example.com" ∧
    hasDoubleSlashAtJoin (stripTrailingSlash "https://example.com/")
      "/sitemap-index.xml" = false :=
  ⟨(C2_trailing_slash "https://example.com/" "/sitemap-index.xml").1 (by decide),
   (C2_trailing_slash "https://example.com" "/sitemap-index.xml").2.1 (by decide),
   (C2_trailing_slash "https://example.com/" "/sitemap-index.xml").2.2 (by decide)⟩

end SitemapPing
